import Mathlib

/-!
# Verification of the badger media-clustering tool

Shallow embedding of the parts of rgrannell1/badger (Go) that the checked
claims are about.  Pure Go functions become Lean functions; stateful code
(file-system writes, the SQLite metadata store) is modelled by explicit
state passing over a file-system map and a list of database rows.  Go
`float64` arithmetic is modelled by exact rationals; Go `int` by `Int`;
Go string operations are re-implemented on Lean strings.

Source layout note: the repository holds several generations of the same
program.  Each definition's doc comment names the source file (and variant)
it embeds.
-/

namespace Badger

/-! ## String helpers (Go `path` / `strings` operations) -/

/-- Helper for `pathExt`: scan the reversed character list of a path,
accumulating the characters seen so far (in original order).  Stops with ""
at a path separator (no dot in the final element) or at the start of the
string; stops with the accumulated suffix when the final dot is found. -/
def pathExtAux : List Char → List Char → String
  | [], _ => ""
  | c :: rest, acc =>
    if c = '/' then ""
    else if c = '.' then String.mk (c :: acc)
    else pathExtAux rest (c :: acc)

/-- Go `path.Ext`: the suffix beginning at the final dot in the final
slash-separated element of the path; empty if there is no dot. -/
def pathExt (s : String) : String := pathExtAux s.data.reverse []

/-- Go `strings.ToLower` (ASCII; the extensions compared here are ASCII). -/
def toLowerStr (s : String) : String := String.mk (s.data.map Char.toLower)

/-- Go `strings.TrimSuffix`: drop `suf` from the end of `s` when present. -/
def trimSuffix (s suf : String) : String :=
  if suf.data.isSuffixOf s.data then
    String.mk (s.data.take (s.data.length - suf.data.length))
  else s

/-! ## Media descriptor (src/unnamed/part_003, `type Media`)

Go zero values: numeric fields 0, strings "", bools false.  The `exifData`
pointer is modelled as an `Option`. -/

/-- EXIF data carried by a photo (src/unnamed/part_003 `PhotoInformation`). -/
structure PhotoInformation where
  Iso          : String
  Aperture     : String
  ShutterSpeed : String
deriving Repr, DecidableEq

/-- Media descriptor (src/unnamed/part_003 `type Media`). -/
structure Media where
  source    : String
  dstDir    : String
  blur      : Int
  size      : Int
  mtime     : Int
  clusterId : Int
  id        : Int
  copied    : Bool
  exifData  : Option PhotoInformation
  hash      : String
deriving Repr, DecidableEq

/-- Media kinds (src/unnamed/part_003 `MediaType` constants). -/
inductive MediaType where
  | photo | raw | video | unknown
deriving Repr, DecidableEq

/-- Go `media.GetExt()` = `path.Ext(media.source)`. -/
def Media.GetExt (m : Media) : String := pathExt m.source

/-- Go `media.GetType()` (src/unnamed/part_003): kind from the lowercased
extension. -/
def Media.GetType (m : Media) : MediaType :=
  let ext := toLowerStr m.GetExt
  if ext = ".jpg" ∨ ext = ".jpeg" ∨ ext = ".png" then .photo
  else if ext = ".rw2" ∨ ext = ".raw" then .raw
  else if ext = ".mp4" then .video
  else .unknown

/-- Go `media.GetPrefix()` (src/unnamed/part_003): the source path with its
extension trimmed; the key shared by a JPEG and its co-captured RAW. -/
def Media.GetPrefixOf (m : Media) : String := trimSuffix m.source m.GetExt

/-- Go `filepath.Join` restricted to the clean, non-empty components this
program joins (a destination root, a decimal cluster id, a file name). -/
def fpJoin (a b : String) : String := a ++ "/" ++ b

/-- Go `media.GetDestinationPath()` (src/unnamed/part_003 lines 86-99):
`<dstDir>/<clusterId>/<blur>_<id><ext>`, with the `<blur>_` part dropped
exactly when the blur field holds the sentinel -1. -/
def Media.GetDestinationPath (m : Media) : String :=
  let root := fpJoin m.dstDir (toString m.clusterId)
  let name :=
    if m.blur = -1 then toString m.id ++ m.GetExt
    else toString m.blur ++ "_" ++ toString m.id ++ m.GetExt
  fpJoin root name

/-- Go `media.GetChosenName()` (src/media.go lines 231-242, second variant):
same naming rule as `GetDestinationPath`, written with string concatenation
in the source. -/
def Media.GetChosenName (m : Media) : String :=
  if m.blur = -1 then
    m.dstDir ++ "/" ++ toString m.clusterId ++ "/" ++ toString m.id ++ m.GetExt
  else
    m.dstDir ++ "/" ++ toString m.clusterId ++ "/" ++ toString m.blur ++ "_" ++
      toString m.id ++ m.GetExt

/-- Destination naming rule in the spec's words: `root/<burst_id>/` followed
by `<score>_<sequence_id><ext>` when a score is set, else by
`<sequence_id><ext>`. -/
def specDestPath (root : String) (burst : Int) (score : Option Int)
    (seqId : Int) (ext : String) : String :=
  match score with
  | some s =>
    root ++ "/" ++ toString burst ++ "/" ++ toString s ++ "_" ++ toString seqId ++ ext
  | none => root ++ "/" ++ toString burst ++ "/" ++ toString seqId ++ ext

/-! ## Library enumeration (src/unnamed/part_000) -/

/-- Badger CLI options (src/main.go second variant `BadgerOpts`; the Go
fields `from` and `to` are spelled `fromGlob` and `toDir` because both are
reserved words in Lean). -/
structure BadgerOpts where
  fromGlob       : String
  toDir          : String
  maxSecondsDiff : Rat
  minPoints      : Int
  yes            : Bool
deriving Repr, DecidableEq

/-- Go `opts.ListMedia()` (src/unnamed/part_000 lines 28-58).  The result of
`filepath.Glob(opts.from)` is passed in as `files` (the glob itself is host
I/O).  Zero matches and exactly one match are both rejected with an error;
otherwise one descriptor per file is built, with `id` the enumeration index
and every other field left at its Go zero value. -/
def ListMedia (opts : BadgerOpts) (files : List String) : Except String (List Media) :=
  if files.length = 0 then
    .error "badger: the --from glob you provided did not match any files"
  else if files.length = 1 then
    .error "badger: the --from glob only matched one file"
  else
    .ok <| files.enum.map fun fi =>
      { source := fi.2, dstDir := opts.toDir, blur := 0, size := 0, mtime := 0,
        clusterId := 0, id := (fi.1 : Int), copied := false, exifData := none,
        hash := "" }

/-! ## Sharpness score (src/image.go `ComputeBlur`, src/media.go `GetBlur`)

The image decoder and the Laplacian convolution are black-box library calls
(`imgio.ImreadGray`, `ed.LaplacianGray`); the embedding starts from their
output, `laplacian.Pix`, the list of 8-bit response pixels, and models the
Go `float64` arithmetic that follows by exact rationals. -/

/-- Go `ComputeBlur` (src/image.go lines 14-47) after the Laplacian call,
operating on the response pixels: sum the pixels, take the mean, square the
deviations, take their mean (the variance), and return `ceil(variance*10)`.
Identical code appears in `media.GetBlur` (src/media.go lines 244-281). -/
def ComputeBlur (pix : List Rat) : Int :=
  let pixSum : Rat := pix.sum
  let mean : Rat := pixSum / (pix.length : Rat)
  let diffs : List Rat := pix.map fun p => (p - mean) ^ 2
  let variance : Rat := diffs.sum / (pix.length : Rat)
  ⌈variance * 10⌉

/-- Population variance, stated in the spec's words: the mean of squared
deviations from the mean response pixel. -/
def specPopVariance (pix : List Rat) : Rat :=
  let mean : Rat := pix.sum / (pix.length : Rat)
  (pix.map fun p => (p - mean) ^ 2).sum / (pix.length : Rat)

/-! ## Free-space probe (src/utils.go first variant, src/main.go lines 215-223) -/

/-- Go `GetFreeSpace()` (src/utils.go lines 15-23): the `unix.Statfs` host
call is abstracted as a function from a path to the free byte count of the
filesystem holding that path.  The Go code probes the hard-coded path
"/home/rg"; the destination directory is not a parameter at all. -/
def GetFreeSpace (statfs : String → Nat) : Nat := statfs "/home/rg"

/-! ## Capture time (src/media.go lines 301-315, src/badger.go lines 36-44) -/

/-- Go `media.GetMtime()` (src/media.go lines 301-315): the `os.Stat` host
call is abstracted as `statMtime`, `none` modelling a stat failure.  A
memoised positive `mtime` field is returned as-is; a stat failure returns
the sentinel 1 rather than an error. -/
def Media.GetMtime (m : Media) (statMtime : Option Int) : Int :=
  if m.mtime > 0 then m.mtime
  else
    match statMtime with
    | none => 1
    | some t => t

/-- Go `media.GetCreationTime()` (src/media.go lines 340-348): the EXIF
DateTime when decoding succeeds, else the mtime fallback.  `exifTime = none`
models `GetExifCreateTime` returning an error. -/
def Media.GetCreationTime (m : Media) (exifTime : Option Int)
    (statMtime : Option Int) : Int :=
  match exifTime with
  | none => m.GetMtime statMtime
  | some t => t

/-- Point construction of `ClusterMedia` (src/cluster.go lines 29-38): each
media file becomes a named 1-D point whose sole coordinate is its creation
time; this list is what the DBSCAN library clusters. -/
def clusterPoints (library : List Media) (exifTime statMtime : Media → Option Int) :
    List (String × Int) :=
  library.map fun m => (m.source, m.GetCreationTime (exifTime m) (statMtime m))

/-! ## Metadata store (src/db.go)

The SQLite `mediaData` table is modelled as a list of rows in insertion
order.  The `CREATE TABLE` statement (src/db.go lines 32-44) declares
`src TEXT NOT NULL` with no PRIMARY KEY or UNIQUE constraint, and
`InsertMedia` (src/db.go lines 77-101) runs a plain `INSERT` with no
conflict clause, so an insert always appends a row. -/

/-- Row of the `mediaData` table (columns of the INSERT in src/db.go). -/
structure DbRow where
  src          : String
  dst          : String
  hash         : String
  rowId        : Int
  clusterId    : Int
  blur         : Int
  mediaType    : MediaType
  iso          : String
  aperture     : String
  shutterSpeed : String
deriving Repr, DecidableEq

/-- Go `CreateTables` (src/db.go lines 24-53): `CREATE TABLE IF NOT EXISTS`
on a fresh database yields an empty table. -/
def CreateTables : List DbRow := []

/-- Row built from a media descriptor by `InsertMedia` (src/db.go lines
77-101): destination from `GetChosenName`, EXIF strings from
`GetInformation` (empty when no EXIF data was decoded). -/
def rowOf (m : Media) : DbRow :=
  let info := m.exifData.getD ⟨"", "", ""⟩
  { src := m.source, dst := m.GetChosenName, hash := m.hash, rowId := m.id,
    clusterId := m.clusterId, blur := m.blur, mediaType := m.GetType,
    iso := info.Iso, aperture := info.Aperture,
    shutterSpeed := info.ShutterSpeed }

/-- Go `InsertMedia` (src/db.go lines 77-101): a plain SQL INSERT into a
table with no uniqueness constraint appends one row. -/
def InsertMedia (table : List DbRow) (m : Media) : List DbRow :=
  table ++ [rowOf m]

/-- Number of rows the store holds for a given source path. -/
def countSrc (table : List DbRow) (src : String) : Nat :=
  (table.filter fun r => r.src = src).length

/-- Result row of `GetMedia` (src/db.go `GetMediaRow`). -/
structure GetMediaRow where
  src  : String
  dst  : String
  hash : String
  blur : Int
deriving Repr, DecidableEq

/-- Go `GetMedia` (src/db.go lines 125-144): `QueryRow ... WHERE src = ?`
returns the first matching row; on `sql.ErrNoRows` the zero-valued
`GetMediaRow{}` struct is returned (every field at its Go zero value), with
a nil error either way. -/
def GetMedia (table : List DbRow) (m : Media) : GetMediaRow :=
  match table.find? fun r => r.src == m.source with
  | some r => { src := r.src, dst := r.dst, hash := r.hash, blur := r.blur }
  | none => { src := "", dst := "", hash := "", blur := 0 }

/-! ## Scoring stage (src/unnamed/part_009 `CalcuateBlur`) -/

/-- Score decision of `CalcuateBlur` (src/unnamed/part_009 lines 175-194)
for a photo: look up the stored row; when `row.blur <= 0` compute a fresh
score (`freshBlur`, the `GetBlur` result), otherwise reuse the stored one.
Returns the score used and whether a fresh computation was performed.  The
content hash is not consulted anywhere on this path. -/
def CalcBlurScore (row : GetMediaRow) (freshBlur : Int) : Int × Bool :=
  if row.blur ≤ 0 then (freshBlur, true) else (row.blur, false)

/-- Photo path of `CalcuateBlur` (src/unnamed/part_009 lines 175-194),
composed with the store lookup. -/
def CalcBlurPhoto (table : List DbRow) (m : Media) (freshBlur : Int) : Int × Bool :=
  CalcBlurScore (GetMedia table m) freshBlur

/-- Modelled from the spec: the body of `MediaList.GetByPrefix` is missing
from src (src/unnamed/part_000 lines 20-22 hold only a stub whose body
`return ""` does not type-check against the declared `[]*Media` result);
only its callers are present.  Spec §4.5: the descriptors sharing the
Photo's `basename_prefix`, "including the Photo itself and any paired
Raws". -/
def GetByPrefix (library : List Media) (m : Media) : List Media :=
  library.filter fun x => x.GetPrefixOf = m.GetPrefixOf

/-- Prefix broadcast of `CalcuateBlur` (src/unnamed/part_009 lines 196-203):
every descriptor sharing the photo's prefix is emitted with the photo's
`id`, `clusterId` and computed blur copied onto it. -/
def BroadcastBlur (library : List Media) (m : Media) (blur : Int) : List Media :=
  (GetByPrefix library m).map fun shared =>
    { shared with id := m.id, clusterId := m.clusterId, blur := blur }

/-! ## Destination file system

Writes to the destination tree are modelled by an explicit state: the set
of directories created and a map from file path to file content (an md5
hash of equal contents is equal, so content equality models hash
equality). -/

/-- Destination file-system state. -/
structure FS where
  dirs  : List String
  files : List (String × String)
deriving Repr, DecidableEq

/-- Does a file exist at `p` (models a successful `os.Stat`)? -/
def FS.statOk (fs : FS) (p : String) : Bool :=
  (fs.files.find? fun e => e.1 == p).isSome

/-- Content of the file at `p`, if any. -/
def FS.read (fs : FS) (p : String) : Option String :=
  (fs.files.find? fun e => e.1 == p).map (·.2)

/-- Create or overwrite the file at `p` with `content` (models `os.Create`
followed by writes). -/
def FS.write (fs : FS) (p content : String) : FS :=
  { fs with files := (p, content) :: fs.files.filter fun e => e.1 != p }

/-- Go `media.DestinationExists()` (src/unnamed/part_003 lines 104-117):
stat the destination path. -/
def Media.DestinationExists (m : Media) (fs : FS) : Bool :=
  fs.statOk m.GetDestinationPath

/-- Go `MakeFolders` (src/unnamed/part_009 lines 31-42): `MkdirAll` one
directory per cluster id 0..clusters-1 under the destination root. -/
def MakeFolders (toDir : String) (clusters : Nat) (fs : FS) : FS :=
  { fs with
    dirs := fs.dirs ++ (List.range clusters).map fun idx => fpJoin toDir (toString idx) }

/-! ## Replication stage, current generation (src/unnamed/part_009 `CopyFiles`) -/

/-- One loop iteration of `CopyFiles` (src/unnamed/part_009 lines 52-141)
for an error-free message whose source is a readable regular file with
content `src m`: when the destination already exists the file is marked
copied and nothing is written (lines 64-69); otherwise the bytes are
streamed to the destination and a metadata row is inserted.  Returns the
updated state and the emitted descriptor. -/
def CopyFilesStep (src : Media → String) (st : FS × List DbRow) (m : Media) :
    (FS × List DbRow) × Media :=
  let (fs, db) := st
  if m.DestinationExists fs then ((fs, db), { m with copied := true })
  else
    let fs1 := fs.write m.GetDestinationPath (src m)
    ((fs1, InsertMedia db m), { m with copied := true })

/-- One successful descriptor through `ProcessLibrary` (src/unnamed/part_009
lines 218-273): the `CopyFiles` worker handles it, then the result loop
(lines 255-270) calls `db.InsertMedia` once more on the emitted value. -/
def ProcessOne (src : Media → String) (st : FS × List DbRow) (m : Media) :
    FS × List DbRow :=
  let res := CopyFilesStep src st m
  (res.1.1, InsertMedia res.1.2 res.2)

/-- Go `ProcessLibrary` (src/unnamed/part_009 lines 218-273) with the
channel fan-out serialised to a fold: make the cluster folders and the
metadata table, then run every entry through copy + result handling. -/
def ProcessLibraryFS (opts : BadgerOpts) (entries : List Media) (nClusters : Nat)
    (src : Media → String) (fs : FS) : FS × List DbRow :=
  entries.foldl (ProcessOne src) (MakeFolders opts.toDir nClusters fs, CreateTables)

/-! ## Replication stage, earlier generation (src/process-library.go `CopyFiles`) -/

/-- Go `media.GetChosenName(blur int)` (src/media.go lines 58-60, first
variant): the `blur` argument is ignored and the name never carries a score
prefix. -/
def Media.GetChosenNameV1 (m : Media) (_blur : Rat) : String :=
  m.dstDir ++ "/" ++ toString m.clusterId ++ "/" ++ toString m.id ++ m.GetExt

/-- One loop iteration of `CopyFiles` (src/process-library.go lines 79-146)
for a job whose source is a readable regular file with content `srcContent`:
`os.Create(blurPath)` first creates-or-truncates the destination, then the
check at lines 114-119 skips the copy only when a stat of `blurPath`
reports the file does NOT exist; otherwise `io.Copy` streams the source
bytes.  Returns the resulting state and whether a byte-copy was performed. -/
def CopyFilesStepPL (m : Media) (storedBlur : Rat) (srcContent : String)
    (fs : FS) : FS × Bool :=
  let blurPath := m.GetChosenNameV1 storedBlur
  let fs1 := fs.write blurPath ""
  if fs1.statOk blurPath = false then (fs1, false)
  else (fs1.write blurPath srcContent, true)

/-! ## Orchestrator pre-flight (src/main.go second variant, lines 377-446) -/

/-- Facts gathered before prompting (src/main.go second variant `Facts`);
only the byte totals drive control flow.  `size` is the summed source byte
count and `freeSpace` the probed free space. -/
structure Facts where
  size      : Nat
  freeSpace : Nat
deriving Repr, DecidableEq

/-- Go `PromptCopy` (src/main.go lines 377-412): reject with an error when
the probed free space is below the total source size; otherwise proceed
when `--yes` was passed, else return the interactive answer. -/
def PromptCopy (facts : Facts) (yesFlag userAnswer : Bool) : Except String Bool :=
  if facts.freeSpace < facts.size then
    .error "not enough free-space under / to copy files"
  else .ok (if yesFlag then true else userAnswer)

/-- Outcome of a run: `fatal` models `bail(err)` panicking, `exit` a normal
return code. -/
inductive RunOutcome where
  | fatal (msg : String)
  | exit (code : Int)
deriving Repr, DecidableEq

/-- Go `Badger` (src/main.go lines 417-446) from the prompt onwards,
threading the destination file-system state.  Enumeration, fact gathering
and clustering (which only read the source tree) produced `facts` and
`entries`; `PromptCopy` runs before `ProcessLibrary`, and `bail` aborts on
its error without ever reaching `ProcessLibrary`. -/
def BadgerRun (opts : BadgerOpts) (facts : Facts) (entries : List Media)
    (nClusters : Nat) (userAnswer : Bool) (src : Media → String) (fs : FS) :
    RunOutcome × FS :=
  match PromptCopy facts opts.yes userAnswer with
  | .error e => (.fatal e, fs)
  | .ok false => (.exit 0, fs)
  | .ok true => (.exit 0, (ProcessLibraryFS opts entries nClusters src fs).1)

/-- Error branch of `BadgerCopy` (src/badger.go lines 303-309): when media
listing fails the error is printed and exit code 1 is returned, whatever
the rest of the run would have done (`rest` abstracts the remainder). -/
def BadgerCopyWith (opts : BadgerOpts) (files : List String)
    (rest : List Media → Int) : Int :=
  match ListMedia opts files with
  | .error _ => 1
  | .ok lst => rest lst

end Badger

namespace Badger

/-! ## Claim theorems -/

/-- C1: the claim says the replication stage performs no byte-copy for a
file whose destination already exists with a matching stored hash.  The
`CopyFiles` variant of src/process-library.go violates this: `os.Create`
runs before the existence check (so the checked path always exists and is
truncated), and the check itself is inverted (it skips only when the stat
reports the destination missing).  First conjunct: this worker byte-copies
on EVERY input state.  Remaining conjuncts: the concrete failing input, a
job whose destination already holds bytes identical to the source. -/
theorem copyFilesPL_always_copies :
    (∀ (m : Media) (b : Rat) (content : String) (fs : FS),
        (CopyFilesStepPL m b content fs).2 = true) ∧
    (CopyFilesStepPL
        { source := "a.jpg", dstDir := "root", blur := 0, size := 0, mtime := 0,
          clusterId := 0, id := 0, copied := false, exifData := none, hash := "" }
        (-1) "BYTES" ⟨[], [("root/0/0.jpg", "BYTES")]⟩).2 = true ∧
    FS.read ⟨[], [("root/0/0.jpg", "BYTES")]⟩
        (Media.GetChosenNameV1
          { source := "a.jpg", dstDir := "root", blur := 0, size := 0, mtime := 0,
            clusterId := 0, id := 0, copied := false, exifData := none, hash := "" }
          (-1)) = some "BYTES" := by
  refine ⟨?_, rfl, rfl⟩
  intro m b content fs
  simp [CopyFilesStepPL, FS.statOk, FS.write, List.find?]

/-- C2: for every photo whose pixels decoded (a nonempty response image),
the sharpness score equals the ceiling of 10 times the population variance
of the Laplacian response pixels, and the returned score is nonnegative.
Go float64 arithmetic is modelled by exact rationals. -/
theorem computeBlur_spec (pix : List Rat) (h : pix ≠ []) :
    ComputeBlur pix = ⌈10 * specPopVariance pix⌉ ∧ 0 ≤ ComputeBlur pix := by
  refine ⟨?_, ?_⟩
  · simp only [ComputeBlur, specPopVariance]
    congr 1
    ring
  · simp only [ComputeBlur]
    refine Int.ceil_nonneg ?_
    have hs : (0:Rat) ≤ (pix.map fun p => (p - pix.sum / (pix.length : Rat)) ^ 2).sum := by
      apply List.sum_nonneg
      intro x hx
      obtain ⟨p, _, rfl⟩ := List.mem_map.mp hx
      positivity
    positivity

/-- Witness for C2 at the concrete pixel list [0, 1]. -/
theorem computeBlur_spec_witness :
    ([(0:Rat), 1] ≠ [] ∧
      (ComputeBlur [(0:Rat), 1] = ⌈10 * specPopVariance [(0:Rat), 1]⌉ ∧
        0 ≤ ComputeBlur [(0:Rat), 1])) :=
  ⟨by decide, computeBlur_spec [(0:Rat), 1] (by decide)⟩

/-- C3 counterexample: a video produced by the enumerator keeps the Go
zero-value blur 0 (not the -1 sentinel), so the replication stage copies it
to `root/0/0_0.mp4`, a filename WITH a score prefix, contradicting the
claim that every video is copied with no score prefix. -/
theorem videoScorePrefix_cx :
    ListMedia ⟨"pics/*", "root", 9, 2, false⟩ ["a.mp4", "b.jpg"] =
      .ok
        [{ source := "a.mp4", dstDir := "root", blur := 0, size := 0, mtime := 0,
           clusterId := 0, id := 0, copied := false, exifData := none, hash := "" },
         { source := "b.jpg", dstDir := "root", blur := 0, size := 0, mtime := 0,
           clusterId := 0, id := 1, copied := false, exifData := none, hash := "" }] ∧
    Media.GetType
        { source := "a.mp4", dstDir := "root", blur := 0, size := 0, mtime := 0,
          clusterId := 0, id := 0, copied := false, exifData := none, hash := "" } = .video ∧
    (CopyFilesStep (fun _ => "MP4BYTES") (⟨[], []⟩, CreateTables)
        { source := "a.mp4", dstDir := "root", blur := 0, size := 0, mtime := 0,
          clusterId := 0, id := 0, copied := false, exifData := none, hash := "" }).1.1.files =
      [("root/0/0_0.mp4", "MP4BYTES")] ∧
    ("root/0/0_0.mp4" : String) ≠ "root/0/0.mp4" := by
  refine ⟨rfl, by rfl, rfl, by decide⟩

/-- C3 (amended): the destination path is `root/<burst>/<blur>_<id><ext>`
when the blur field is not -1 and `root/<burst>/<id><ext>` when it is -1;
`GetChosenName` and `GetDestinationPath` agree; and every descriptor built
by the enumerator starts with blur 0 (not -1), which is why videos carry a
`0_` score prefix. -/
theorem destinationPath_amended (m : Media) (opts : BadgerOpts)
    (files : List String) (lst : List Media)
    (hl : ListMedia opts files = .ok lst) :
    m.GetChosenName =
      specDestPath m.dstDir m.clusterId
        (if m.blur = -1 then none else some m.blur) m.id m.GetExt ∧
    m.GetChosenName = m.GetDestinationPath ∧
    ∀ x ∈ lst, x.blur = 0 := by
  refine ⟨?_, ?_, ?_⟩
  · by_cases hb : m.blur = -1 <;> simp [Media.GetChosenName, specDestPath, hb]
  · by_cases hb : m.blur = -1 <;>
      simp [Media.GetChosenName, Media.GetDestinationPath, fpJoin, hb, String.append_assoc]
  · intro x hx
    simp only [ListMedia] at hl
    split at hl
    · exact absurd hl (by simp)
    · split at hl
      · exact absurd hl (by simp)
      · obtain ⟨fi, _, rfl⟩ := List.mem_map.mp (by
          rw [← Except.ok.injEq _ _ |>.mp hl] at hx; exact hx)
        rfl

/-- Witness for C3 (amended) at the enumerated video descriptor. -/
theorem destinationPath_amended_witness :
    ListMedia ⟨"pics/*", "root", 9, 2, false⟩ ["a.mp4", "b.jpg"] =
      .ok
        [{ source := "a.mp4", dstDir := "root", blur := 0, size := 0, mtime := 0,
           clusterId := 0, id := 0, copied := false, exifData := none, hash := "" },
         { source := "b.jpg", dstDir := "root", blur := 0, size := 0, mtime := 0,
           clusterId := 0, id := 1, copied := false, exifData := none, hash := "" }] ∧
    (Media.GetChosenName
        { source := "a.mp4", dstDir := "root", blur := 0, size := 0, mtime := 0,
          clusterId := 0, id := 0, copied := false, exifData := none, hash := "" } =
      specDestPath "root" 0 (if (0 : Int) = -1 then none else some 0) 0
        (Media.GetExt
          { source := "a.mp4", dstDir := "root", blur := 0, size := 0, mtime := 0,
            clusterId := 0, id := 0, copied := false, exifData := none, hash := "" }) ∧
      Media.GetChosenName
        { source := "a.mp4", dstDir := "root", blur := 0, size := 0, mtime := 0,
          clusterId := 0, id := 0, copied := false, exifData := none, hash := "" } =
      Media.GetDestinationPath
        { source := "a.mp4", dstDir := "root", blur := 0, size := 0, mtime := 0,
          clusterId := 0, id := 0, copied := false, exifData := none, hash := "" } ∧
      ∀ x ∈
        ([{ source := "a.mp4", dstDir := "root", blur := 0, size := 0, mtime := 0,
            clusterId := 0, id := 0, copied := false, exifData := none, hash := "" },
          { source := "b.jpg", dstDir := "root", blur := 0, size := 0, mtime := 0,
            clusterId := 0, id := 1, copied := false, exifData := none, hash := "" }] :
          List Media),
        x.blur = 0) :=
  ⟨rfl,
    destinationPath_amended
      { source := "a.mp4", dstDir := "root", blur := 0, size := 0, mtime := 0,
        clusterId := 0, id := 0, copied := false, exifData := none, hash := "" }
      ⟨"pics/*", "root", 9, 2, false⟩ ["a.mp4", "b.jpg"]
      [{ source := "a.mp4", dstDir := "root", blur := 0, size := 0, mtime := 0,
         clusterId := 0, id := 0, copied := false, exifData := none, hash := "" },
       { source := "b.jpg", dstDir := "root", blur := 0, size := 0, mtime := 0,
         clusterId := 0, id := 1, copied := false, exifData := none, hash := "" }] rfl⟩

/-- C4: if a Photo and a Raw in the library share a basename prefix (and
the common destination root every enumerated descriptor gets), the scoring
stage emits copies of both carrying the Photo's cluster id, sequence id and
score, so both destination paths sit in the same burst directory with the
same `<score>_<sequence>` filename prefix, differing only in extension. -/
theorem prefixBroadcast (library : List Media) (p r : Media) (blur : Int)
    (h0 : 0 ≤ blur) (hp : p ∈ library) (hr : r ∈ library)
    (hpre : r.GetPrefixOf = p.GetPrefixOf) (hdst : r.dstDir = p.dstDir) :
    ∃ p' ∈ BroadcastBlur library p blur, ∃ r' ∈ BroadcastBlur library p blur,
      p'.source = p.source ∧ r'.source = r.source ∧
      p'.GetDestinationPath =
        fpJoin (fpJoin p.dstDir (toString p.clusterId))
          (toString blur ++ "_" ++ toString p.id ++ p.GetExt) ∧
      r'.GetDestinationPath =
        fpJoin (fpJoin p.dstDir (toString p.clusterId))
          (toString blur ++ "_" ++ toString p.id ++ r.GetExt) := by
  have hbne : ¬ (blur = -1) := by omega
  refine ⟨{ p with id := p.id, clusterId := p.clusterId, blur := blur }, ?_,
          { r with id := p.id, clusterId := p.clusterId, blur := blur }, ?_,
          rfl, rfl, ?_, ?_⟩
  · exact List.mem_map.mpr ⟨p, List.mem_filter.mpr ⟨hp, by simp⟩, rfl⟩
  · exact List.mem_map.mpr ⟨r, List.mem_filter.mpr ⟨hr, by simp [hpre]⟩, rfl⟩
  · simp [Media.GetDestinationPath, Media.GetExt, hbne]
  · simp [Media.GetDestinationPath, Media.GetExt, hbne, hdst]

/-- Witness for C4: IMG1.JPG with cluster 3 and id 1 broadcasts score 7 to
IMG1.RW2; both land under root/3 with prefix 7_1. -/
theorem prefixBroadcast_witness :
    ((0 : Int) ≤ 7 ∧
      ({ source := "IMG1.JPG", dstDir := "root", blur := 0, size := 0, mtime := 0,
         clusterId := 3, id := 1, copied := false, exifData := none, hash := "" } : Media) ∈
        [({ source := "IMG1.JPG", dstDir := "root", blur := 0, size := 0, mtime := 0,
            clusterId := 3, id := 1, copied := false, exifData := none, hash := "" } : Media),
         { source := "IMG1.RW2", dstDir := "root", blur := 0, size := 0, mtime := 0,
           clusterId := 0, id := 2, copied := false, exifData := none, hash := "" }] ∧
      ({ source := "IMG1.RW2", dstDir := "root", blur := 0, size := 0, mtime := 0,
         clusterId := 0, id := 2, copied := false, exifData := none, hash := "" } : Media) ∈
        [({ source := "IMG1.JPG", dstDir := "root", blur := 0, size := 0, mtime := 0,
            clusterId := 3, id := 1, copied := false, exifData := none, hash := "" } : Media),
         { source := "IMG1.RW2", dstDir := "root", blur := 0, size := 0, mtime := 0,
           clusterId := 0, id := 2, copied := false, exifData := none, hash := "" }] ∧
      Media.GetPrefixOf
          { source := "IMG1.RW2", dstDir := "root", blur := 0, size := 0, mtime := 0,
            clusterId := 0, id := 2, copied := false, exifData := none, hash := "" } =
        Media.GetPrefixOf
          { source := "IMG1.JPG", dstDir := "root", blur := 0, size := 0, mtime := 0,
            clusterId := 3, id := 1, copied := false, exifData := none, hash := "" }) ∧
    (∃ p' ∈ BroadcastBlur
        [({ source := "IMG1.JPG", dstDir := "root", blur := 0, size := 0, mtime := 0,
            clusterId := 3, id := 1, copied := false, exifData := none, hash := "" } : Media),
         { source := "IMG1.RW2", dstDir := "root", blur := 0, size := 0, mtime := 0,
           clusterId := 0, id := 2, copied := false, exifData := none, hash := "" }]
        { source := "IMG1.JPG", dstDir := "root", blur := 0, size := 0, mtime := 0,
          clusterId := 3, id := 1, copied := false, exifData := none, hash := "" } 7,
      ∃ r' ∈ BroadcastBlur
        [({ source := "IMG1.JPG", dstDir := "root", blur := 0, size := 0, mtime := 0,
            clusterId := 3, id := 1, copied := false, exifData := none, hash := "" } : Media),
         { source := "IMG1.RW2", dstDir := "root", blur := 0, size := 0, mtime := 0,
           clusterId := 0, id := 2, copied := false, exifData := none, hash := "" }]
        { source := "IMG1.JPG", dstDir := "root", blur := 0, size := 0, mtime := 0,
          clusterId := 3, id := 1, copied := false, exifData := none, hash := "" } 7,
        p'.source = "IMG1.JPG" ∧ r'.source = "IMG1.RW2" ∧
        p'.GetDestinationPath =
          fpJoin (fpJoin "root" (toString (3 : Int)))
            (toString (7 : Int) ++ "_" ++ toString (1 : Int) ++
              Media.GetExt
                { source := "IMG1.JPG", dstDir := "root", blur := 0, size := 0, mtime := 0,
                  clusterId := 3, id := 1, copied := false, exifData := none, hash := "" }) ∧
        r'.GetDestinationPath =
          fpJoin (fpJoin "root" (toString (3 : Int)))
            (toString (7 : Int) ++ "_" ++ toString (1 : Int) ++
              Media.GetExt
                { source := "IMG1.RW2", dstDir := "root", blur := 0, size := 0, mtime := 0,
                  clusterId := 0, id := 2, copied := false, exifData := none, hash := "" })) :=
  ⟨⟨by decide, by decide, by decide, by decide⟩,
    prefixBroadcast _
      { source := "IMG1.JPG", dstDir := "root", blur := 0, size := 0, mtime := 0,
        clusterId := 3, id := 1, copied := false, exifData := none, hash := "" }
      { source := "IMG1.RW2", dstDir := "root", blur := 0, size := 0, mtime := 0,
        clusterId := 0, id := 2, copied := false, exifData := none, hash := "" }
      7 (by decide) (by decide) (by decide) (by decide) rfl⟩

/-- C5 counterexample: inserting the same media twice into the fresh table
yields TWO rows for its source path (plain INSERT, no primary key), not the
single overwritten row the claim asserts. -/
theorem insertMedia_duplicate_cx :
    countSrc CreateTables "IMG1.JPG" = 0 ∧
    countSrc
      (InsertMedia
        (InsertMedia CreateTables
          { source := "IMG1.JPG", dstDir := "root", blur := 3, size := 0, mtime := 0,
            clusterId := 0, id := 0, copied := false, exifData := none, hash := "h1" })
        { source := "IMG1.JPG", dstDir := "root", blur := 3, size := 0, mtime := 0,
          clusterId := 0, id := 0, copied := false, exifData := none, hash := "h1" })
      "IMG1.JPG" = 2 := ⟨rfl, rfl⟩

/-- C5 (amended): every insert appends one more row for its source path
(and leaves other source paths untouched); a single run of the part_009
pipeline inserts each newly copied file twice, once in the CopyFiles worker
and once in the ProcessLibrary result loop. -/
theorem insertMedia_amended (table : List DbRow) (m : Media) :
    countSrc (InsertMedia table m) m.source = countSrc table m.source + 1 ∧
    (∀ s, s ≠ m.source → countSrc (InsertMedia table m) s = countSrc table s) ∧
    ∀ (src : Media → String) (fs : FS) (db : List DbRow),
      m.DestinationExists fs = false →
      countSrc (ProcessOne src (fs, db) m).2 m.source = countSrc db m.source + 2 := by
  refine ⟨?_, fun s hs => ?_, fun src fs db hne => ?_⟩
  · simp [countSrc, InsertMedia, List.filter_append, rowOf]
  · simp [countSrc, InsertMedia, List.filter_append, rowOf, hs, Ne.symm hs]
  · simp [ProcessOne, CopyFilesStep, hne, countSrc, InsertMedia,
      List.filter_append, rowOf]

/-- Witness for C5 (amended) at a concrete media file and the empty table. -/
theorem insertMedia_amended_witness :
    (countSrc
        (InsertMedia []
          { source := "IMG1.JPG", dstDir := "root", blur := 3, size := 0, mtime := 0,
            clusterId := 0, id := 0, copied := false, exifData := none, hash := "h1" })
        "IMG1.JPG" =
      countSrc [] "IMG1.JPG" + 1) ∧
    (("other.jpg" : String) ≠ "IMG1.JPG" ∧
      countSrc
        (InsertMedia []
          { source := "IMG1.JPG", dstDir := "root", blur := 3, size := 0, mtime := 0,
            clusterId := 0, id := 0, copied := false, exifData := none, hash := "h1" })
        "other.jpg" =
      countSrc [] "other.jpg") ∧
    (Media.DestinationExists
        { source := "IMG1.JPG", dstDir := "root", blur := 3, size := 0, mtime := 0,
          clusterId := 0, id := 0, copied := false, exifData := none, hash := "h1" }
        ⟨[], []⟩ = false ∧
      countSrc
        (ProcessOne (fun _ => "B") (⟨[], []⟩, [])
          { source := "IMG1.JPG", dstDir := "root", blur := 3, size := 0, mtime := 0,
            clusterId := 0, id := 0, copied := false, exifData := none, hash := "h1" }).2
        "IMG1.JPG" =
      countSrc [] "IMG1.JPG" + 2) :=
  ⟨(insertMedia_amended []
      { source := "IMG1.JPG", dstDir := "root", blur := 3, size := 0, mtime := 0,
        clusterId := 0, id := 0, copied := false, exifData := none, hash := "h1" }).1,
    ⟨by decide,
      (insertMedia_amended []
        { source := "IMG1.JPG", dstDir := "root", blur := 3, size := 0, mtime := 0,
          clusterId := 0, id := 0, copied := false, exifData := none, hash := "h1" }).2.1
        "other.jpg" (by decide)⟩,
    ⟨rfl,
      (insertMedia_amended []
        { source := "IMG1.JPG", dstDir := "root", blur := 3, size := 0, mtime := 0,
          clusterId := 0, id := 0, copied := false, exifData := none, hash := "h1" }).2.2
        (fun _ => "B") ⟨[], []⟩ [] rfl⟩⟩

/-- C6 counterexample: for a store row with blur 5 but a stored hash that
differs from the current source hash, the scoring stage still reuses the
stored score (no fresh computation), contradicting the claim that reuse
requires a matching content hash; and for a stored score 0 with a matching
hash it recomputes, contradicting the claimed score-greater-or-equal-0
reuse condition. -/
theorem calcBlur_hash_cx :
    (GetMedia
        [{ src := "a.jpg", dst := "d", hash := "h_old", rowId := 0, clusterId := 0,
           blur := 5, mediaType := .photo, iso := "", aperture := "", shutterSpeed := "" }]
        { source := "a.jpg", dstDir := "root", blur := 0, size := 0, mtime := 0,
          clusterId := 0, id := 0, copied := false, exifData := none, hash := "h_new" }).hash
      = "h_old" ∧
    ("h_old" : String) ≠ "h_new" ∧
    (CalcBlurPhoto
        [{ src := "a.jpg", dst := "d", hash := "h_old", rowId := 0, clusterId := 0,
           blur := 5, mediaType := .photo, iso := "", aperture := "", shutterSpeed := "" }]
        { source := "a.jpg", dstDir := "root", blur := 0, size := 0, mtime := 0,
          clusterId := 0, id := 0, copied := false, exifData := none, hash := "h_new" }
        99).2 = false ∧
    (CalcBlurPhoto
        [{ src := "a.jpg", dst := "d", hash := "h_old", rowId := 0, clusterId := 0,
           blur := 5, mediaType := .photo, iso := "", aperture := "", shutterSpeed := "" }]
        { source := "a.jpg", dstDir := "root", blur := 0, size := 0, mtime := 0,
          clusterId := 0, id := 0, copied := false, exifData := none, hash := "h_new" }
        99).1 = 5 ∧
    (CalcBlurPhoto
        [{ src := "b.jpg", dst := "d", hash := "h", rowId := 0, clusterId := 0,
           blur := 0, mediaType := .photo, iso := "", aperture := "", shutterSpeed := "" }]
        { source := "b.jpg", dstDir := "root", blur := 0, size := 0, mtime := 0,
          clusterId := 0, id := 0, copied := false, exifData := none, hash := "h" }
        99).2 = true := by
  refine ⟨rfl, by decide, rfl, rfl, rfl⟩

/-- C6 (amended): a fresh score is computed exactly when the stored row has
blur at most 0 (including the no-row case, whose zero-valued row has blur
0); the decision and the score used are independent of the content hash,
and the score used is the stored blur when it is positive, else the fresh
one. -/
theorem calcBlur_amended (table : List DbRow) (m : Media) (freshBlur : Int) :
    ((CalcBlurPhoto table m freshBlur).2 = true ↔ (GetMedia table m).blur ≤ 0) ∧
    (∀ h : String, CalcBlurPhoto table { m with hash := h } freshBlur =
      CalcBlurPhoto table m freshBlur) ∧
    (CalcBlurPhoto table m freshBlur).1 =
      (if (GetMedia table m).blur ≤ 0 then freshBlur else (GetMedia table m).blur) := by
  refine ⟨?_, fun h => rfl, ?_⟩
  · by_cases hb : (GetMedia table m).blur ≤ 0 <;>
      simp [CalcBlurPhoto, CalcBlurScore, hb]
  · by_cases hb : (GetMedia table m).blur ≤ 0 <;>
      simp [CalcBlurPhoto, CalcBlurScore, hb]

/-- C7: a glob expansion with zero matches or exactly one match makes
enumeration return an error (no media list), and BadgerCopy then exits
with code 1 regardless of what the rest of the run would do. -/
theorem listMedia_shortGlob (opts : BadgerOpts) (files : List String)
    (h : files.length ≤ 1) :
    (∃ e, ListMedia opts files = .error e) ∧
      (∀ lst, ¬ ListMedia opts files = .ok lst) ∧
      ∀ rest, BadgerCopyWith opts files rest = 1 := by
  rcases Nat.le_one_iff_eq_zero_or_eq_one.mp h with h0 | h1
  · have he : ListMedia opts files =
        .error "badger: the --from glob you provided did not match any files" := by
      simp [ListMedia, h0]
    exact ⟨⟨_, he⟩, fun lst hlst => by simp [he] at hlst,
      fun rest => by simp [BadgerCopyWith, he]⟩
  · have he : ListMedia opts files =
        .error "badger: the --from glob only matched one file" := by
      simp [ListMedia, h1]
    exact ⟨⟨_, he⟩, fun lst hlst => by simp [he] at hlst,
      fun rest => by simp [BadgerCopyWith, he]⟩

/-- Witness for C7 at a single-match glob. -/
theorem listMedia_shortGlob_witness :
    (["only.jpg"] : List String).length ≤ 1 ∧
      ((∃ e, ListMedia ⟨"pics/*", "dest", 9, 2, false⟩ ["only.jpg"] = .error e) ∧
        (∀ lst, ¬ ListMedia ⟨"pics/*", "dest", 9, 2, false⟩ ["only.jpg"] = .ok lst) ∧
        ∀ rest, BadgerCopyWith ⟨"pics/*", "dest", 9, 2, false⟩ ["only.jpg"] rest = 1) :=
  ⟨by decide, listMedia_shortGlob ⟨"pics/*", "dest", 9, 2, false⟩ ["only.jpg"] (by decide)⟩

/-- C8: when the probed free space is below the total source byte count the
run aborts at the prompt with a fatal error and the destination state is
returned untouched: no cluster directories are made and no file is
written, because ProcessLibrary is never reached. -/
theorem badger_preflight (opts : BadgerOpts) (facts : Facts) (entries : List Media)
    (nClusters : Nat) (userAnswer : Bool) (src : Media → String) (fs : FS)
    (h : facts.freeSpace < facts.size) :
    BadgerRun opts facts entries nClusters userAnswer src fs =
      (.fatal "not enough free-space under / to copy files", fs) := by
  simp [BadgerRun, PromptCopy, h]

/-- Witness for C8 with 3 free bytes against 5 source bytes. -/
theorem badger_preflight_witness :
    (Facts.mk 5 3).freeSpace < (Facts.mk 5 3).size ∧
      BadgerRun ⟨"pics/*", "root", 9, 2, false⟩ (Facts.mk 5 3) [] 0 true
          (fun _ => "") ⟨[], []⟩ =
        (.fatal "not enough free-space under / to copy files", ⟨[], []⟩) :=
  ⟨by decide,
    badger_preflight ⟨"pics/*", "root", 9, 2, false⟩ (Facts.mk 5 3) [] 0 true
      (fun _ => "") ⟨[], []⟩ (by decide)⟩

/-- C9: the free-space probe statfs's the hard-coded path "/home/rg" for
every choice of statfs behaviour; a destination on a filesystem with
different free space (here 999 bytes at /mnt/backup) is never consulted,
contradicting the claim that the probe targets the --to directory. -/
theorem getFreeSpace_ignores_destination :
    (∀ statfs : String → Nat, GetFreeSpace statfs = statfs "/home/rg") ∧
      GetFreeSpace (fun p => if p = "/home/rg" then 100 else 999) = 100 ∧
      (fun p => if p = "/home/rg" then 100 else 999) "/mnt/backup" = 999 := by
  refine ⟨fun _ => rfl, by simp [GetFreeSpace], by simp⟩

/-- C10: a media file with no memoised mtime whose stat fails gets mtime 1
(no error), the EXIF-failure fallback propagates it as the creation time,
and the clusterer receives the point (source, 1). -/
theorem getMtime_sentinel (m : Media) (h : m.mtime ≤ 0) :
    m.GetMtime none = 1 ∧
      m.GetCreationTime none none = 1 ∧
      ∀ (library : List Media) (exifTime statMtime : Media → Option Int),
        m ∈ library → exifTime m = none → statMtime m = none →
        (m.source, 1) ∈ clusterPoints library exifTime statMtime := by
  have hm : ¬ m.mtime > 0 := by omega
  refine ⟨by simp [Media.GetMtime, hm], by simp [Media.GetCreationTime, Media.GetMtime, hm], ?_⟩
  intro library exifTime statMtime hmem hex hst
  refine List.mem_map.mpr ⟨m, hmem, ?_⟩
  simp [Media.GetCreationTime, Media.GetMtime, hex, hst, hm]

/-- Witness for C10 at a concrete unreadable file. -/
theorem getMtime_sentinel_witness :
    ({ source := "gone.jpg", dstDir := "root", blur := 0, size := 0, mtime := 0,
       clusterId := 0, id := 0, copied := false, exifData := none,
       hash := "" } : Media).mtime ≤ 0 ∧
    (Media.GetMtime
        { source := "gone.jpg", dstDir := "root", blur := 0, size := 0, mtime := 0,
          clusterId := 0, id := 0, copied := false, exifData := none, hash := "" }
        none = 1 ∧
      Media.GetCreationTime
        { source := "gone.jpg", dstDir := "root", blur := 0, size := 0, mtime := 0,
          clusterId := 0, id := 0, copied := false, exifData := none, hash := "" }
        none none = 1 ∧
      ("gone.jpg", 1) ∈
        clusterPoints
          [{ source := "gone.jpg", dstDir := "root", blur := 0, size := 0, mtime := 0,
             clusterId := 0, id := 0, copied := false, exifData := none, hash := "" }]
          (fun _ => none) (fun _ => none)) :=
  ⟨by decide,
    (getMtime_sentinel
        { source := "gone.jpg", dstDir := "root", blur := 0, size := 0, mtime := 0,
          clusterId := 0, id := 0, copied := false, exifData := none, hash := "" }
        (by decide)).1,
    (getMtime_sentinel
        { source := "gone.jpg", dstDir := "root", blur := 0, size := 0, mtime := 0,
          clusterId := 0, id := 0, copied := false, exifData := none, hash := "" }
        (by decide)).2.1,
    (getMtime_sentinel
        { source := "gone.jpg", dstDir := "root", blur := 0, size := 0, mtime := 0,
          clusterId := 0, id := 0, copied := false, exifData := none, hash := "" }
        (by decide)).2.2 _ (fun _ => none) (fun _ => none) (by simp) rfl rfl⟩

end Badger
